import Mathlib

/-!
# Verification of the vumi fake-AMQP broker emulator and the Dmark USSD adapter

This development embeds, in Lean 4:

* the in-memory message-broker emulator (`FakeAMQPBroker`): topology registry
  (exchanges, queues, bindings), the routing engine (direct and topic
  matching), and synchronous publish/deliver;
* the Dmark USSD transport adapter (`src/vumi/transports/dmark/dmark_ussd.py`):
  session-event computation, inbound message construction, and outbound reply
  handling.

The broker itself (`vumi/tests/fake_amqp.py`) is exercised by
`src/vumi/tests/test_fake_amqp.py` but its source is not in the repository
snapshot, so its operations are modelled from the specification's component
design (topology registry, routing engine, queue, channel publish).  The Dmark
adapter's own logic is translated directly from `dmark_ussd.py`; its
collaborators (the Redis-backed `SessionManager` and the HTTP-RPC
`finish_request`) are modelled from the specification's collaborator contract.
-/

namespace FakeAMQP

/-- A message as routed by the broker: the exchange it was published to, the
routing key, and an opaque payload. -/
structure Message where
  exchange_name : String
  routing_key : String
  payload : String
  deriving Repr, DecidableEq

/-- Modelled from the spec: the Queue component of `fake_amqp.py` (absent from
src/) — "an unbounded, insertion-ordered buffer of delivered messages per
queue name". -/
structure Queue where
  name : String
  messages : List Message
  deriving Repr, DecidableEq

/-- Modelled from the spec: the Exchange entity of `fake_amqp.py` (absent from
src/) — "`name: string`, `type: enum{direct, topic}`,
`binds: map(routing_pattern → set of queue_name)`".  The binds map is an
association list from routing pattern to the (duplicate-free) set of bound
queue names. -/
structure Exchange where
  name : String
  exchange_type : String
  binds : List (String × List String)
  deriving Repr, DecidableEq

/-- Modelled from the spec: the Broker's topology registry of `fake_amqp.py`
(absent from src/) — "owns `exchanges: map(name → Exchange)`,
`queues: map(name → Queue)`". -/
structure FakeAMQPBroker where
  exchanges : List (String × Exchange)
  queues : List (String × Queue)
  deriving Repr, DecidableEq

/-- Association-list lookup (the map primitive used by the registry). -/
def alookup {α : Type} (k : String) : List (String × α) → Option α
  | [] => none
  | (k', v) :: rest => if k = k' then some v else alookup k rest

/-- Association-list update of the value stored at an existing key. -/
def aupdate {α : Type} (k : String) (f : α → α) : List (String × α) → List (String × α)
  | [] => []
  | (k', v) :: rest => if k = k' then (k', f v) :: rest else (k', v) :: aupdate k f rest

/-- Modelled from the spec: `exchange_declare(name, type)` of `fake_amqp.py`
(absent from src/) — "creates the exchange if absent; if present, must be
compatible"; re-declaration keeps the original exchange (the silent-keep
policy for `TypeMismatch`). -/
def exchange_declare (b : FakeAMQPBroker) (name exchange_type : String) : FakeAMQPBroker :=
  match alookup name b.exchanges with
  | some _ => b
  | none => { b with exchanges := b.exchanges ++ [(name, ⟨name, exchange_type, []⟩)] }

/-- Modelled from the spec: `queue_declare(name)` of `fake_amqp.py` (absent
from src/) — "creates an empty queue if absent; idempotent if already
declared". -/
def queue_declare (b : FakeAMQPBroker) (name : String) : FakeAMQPBroker :=
  match alookup name b.queues with
  | some _ => b
  | none => { b with queues := b.queues ++ [(name, ⟨name, []⟩)] }

/-- Insert a queue name into a pattern's bound set, keeping set semantics
(binding an already-bound queue is a no-op). -/
def bindInsert (queue : String) : List String → List String
  | [] => [queue]
  | q :: qs => if queue = q then q :: qs else q :: bindInsert queue qs

/-- Add `queue` to the set bound to `pattern` on an exchange, creating the
pattern's entry if absent. -/
def addBind (ex : Exchange) (pattern queue : String) : Exchange :=
  match alookup pattern ex.binds with
  | some _ => { ex with binds := aupdate pattern (bindInsert queue) ex.binds }
  | none => { ex with binds := ex.binds ++ [(pattern, [queue])] }

/-- Modelled from the spec: `queue_bind(queue_name, exchange_name,
routing_pattern)` of `fake_amqp.py` (absent from src/) — "requires the
exchange and queue to already exist (fails with a `NotFound` condition
otherwise); adds `queue_name` to the set bound to `routing_pattern` on that
exchange.  Idempotent." -/
def queue_bind (b : FakeAMQPBroker) (queue exchange pattern : String) :
    Except String FakeAMQPBroker :=
  match alookup exchange b.exchanges with
  | none => .error "NotFound: exchange"
  | some _ =>
    match alookup queue b.queues with
    | none => .error "NotFound: queue"
    | some _ =>
      .ok { b with exchanges := aupdate exchange (fun ex => addBind ex pattern queue) b.exchanges }

/-- Segment a routing key or pattern (as its character list) by the fixed
`.` delimiter, the segmentation used by topic matching: `a.b.c` becomes the
segments `a`, `b`, `c`, and the empty string becomes one empty segment. -/
def splitDots : List Char → List (List Char)
  | [] => [[]]
  | c :: cs =>
    if c = '.' then [] :: splitDots cs
    else
      match splitDots cs with
      | [] => [[c]]
      | seg :: rest => (c :: seg) :: rest

/-- Fuel-indexed topic matcher over dot-segments.  Every recursive call
strictly decreases `pat.length + key.length`, and the fuel decreases by
exactly one per call, so with fuel strictly greater than that sum the `0`
case is never reached. -/
def topicMatchAux : Nat → List (List Char) → List (List Char) → Bool
  | 0, _, _ => false
  | _ + 1, [], [] => true
  | _ + 1, [], _ :: _ => false
  | fuel + 1, p :: ps, ks =>
    if p = ['#'] then
      topicMatchAux fuel ps ks ||
        (match ks with
         | [] => false
         | _ :: ks' => topicMatchAux fuel (p :: ps) ks')
    else
      match ks with
      | [] => false
      | k :: ks' => (p = ['*'] || p = k) && topicMatchAux fuel ps ks'

/-- Modelled from the spec: topic-pattern matching of `fake_amqp.py` (absent
from src/) — a literal segment must equal the key segment, `*` matches exactly
one segment, `#` matches zero or more segments, and the pattern must consume
the full key exactly. -/
def topicMatch (pat key : List (List Char)) : Bool :=
  topicMatchAux (pat.length + key.length + 1) pat key

/-- Modelled from the spec: exchange-type-specific matching of `fake_amqp.py`
(absent from src/) — "Direct exchange: a message matches a binding iff the
routing key equals the binding's pattern exactly (no wildcard
interpretation)"; topic exchanges segment by `.` and use `topicMatch`. -/
def patternMatches (exchange_type pattern key : String) : Bool :=
  if exchange_type = "topic" then
    topicMatch (splitDots pattern.data) (splitDots key.data)
  else
    pattern = key

/-- Modelled from the spec: the routing engine of `fake_amqp.py` (absent from
src/) — "`route(exchange_name, routing_key) → set of queue_name` … the union,
across all bound patterns on the exchange that match the key, of their bound
queue sets (deduplicated)".  An unknown exchange routes nowhere. -/
def route (b : FakeAMQPBroker) (exchange routing_key : String) : List String :=
  match alookup exchange b.exchanges with
  | none => []
  | some ex =>
    (((ex.binds.filter (fun pq => patternMatches ex.exchange_type pq.1 routing_key)).map
      Prod.snd).flatten).dedup

/-- One invocation of a queue's delivery hook: the queue it fired on and the
three positional arguments `(exchange_name, routing_key, payload)` it was
called with, in that order. -/
structure Delivery where
  queue : String
  arg1 : String
  arg2 : String
  arg3 : String
  deriving Repr, DecidableEq

/-- Modelled from the spec: `Queue.put` of `fake_amqp.py` (absent from src/)
— called as `put(exchange, routing_key, payload)` per `test_publish_direct`;
appends the message to the queue's ordered buffer. -/
def Queue.put (q : Queue) (exchange routing_key payload : String) : Queue :=
  { q with messages := q.messages ++ [⟨exchange, routing_key, payload⟩] }

/-- Modelled from the spec: `basic_publish(exchange, routing_key, payload)` of
`fake_amqp.py` (absent from src/) — "calls `Routing Engine.route`, then
`enqueue`s the payload onto every returned queue"; never fails.  Returns the
updated broker together with the trace of delivery-hook invocations, one per
routed queue. -/
def basic_publish (b : FakeAMQPBroker) (exchange routing_key payload : String) :
    FakeAMQPBroker × List Delivery :=
  let routed := route b exchange routing_key
  let b' := routed.foldl
    (fun acc qname =>
      { acc with queues := aupdate qname (fun q => q.put exchange routing_key payload) acc.queues })
    b
  (b', routed.map (fun qname => ⟨qname, exchange, routing_key, payload⟩))

/-- The number of messages a publish delivered to queue `q`: the number of
delivery-hook invocations on that queue in the publish's trace. -/
def deliveredCount (trace : List Delivery) (q : String) : Nat :=
  (trace.filter (fun d => d.queue = q)).length

/-- A freshly constructed broker with no topology. -/
def emptyBroker : FakeAMQPBroker := ⟨[], []⟩

/-- Scenario-construction helper: perform a bind, keeping the broker
unchanged when the bind fails with `NotFound`. -/
def bindOrKeep (b : FakeAMQPBroker) (queue exchange pattern : String) : FakeAMQPBroker :=
  match queue_bind b queue exchange pattern with
  | .ok b' => b'
  | .error _ => b

/-- The end-to-end scenario topology of `test_publish_direct`: a direct
exchange `direct`; queues `q1`, `q2`, `q3`; `q1` bound to `routing.key.one`
and `routing.key.two`; `q2` bound to `routing.key.two`; `q3` unbound. -/
def scenarioBroker : FakeAMQPBroker :=
  bindOrKeep (bindOrKeep (bindOrKeep
    (queue_declare (queue_declare (queue_declare
      (exchange_declare emptyBroker "direct" "direct") "q1") "q2") "q3")
    "q1" "direct" "routing.key.one")
    "q1" "direct" "routing.key.two")
    "q2" "direct" "routing.key.two"

/-- A topic-exchange topology in which queue `q1` is bound to two distinct
patterns, `routing.key.*` and `routing.key.#`, that both match the key
`routing.key.x`. -/
def topicBroker : FakeAMQPBroker :=
  bindOrKeep (bindOrKeep
    (queue_declare (exchange_declare emptyBroker "topic" "topic") "q1")
    "q1" "topic" "routing.key.*")
    "q1" "topic" "routing.key.#"

end FakeAMQP

namespace Dmark

/-- `TransportUserMessage` session-event tags, the fixed set
`{NEW, RESUME, CLOSE}` used by `dmark_ussd.py`. -/
inductive SessionEvent where
  | new
  | resume
  | close
  deriving Repr, DecidableEq

/-- A session record as created by `session_event_for_transaction` in
`dmark_ussd.py`: `create_session(session_id, transaction_id=transaction_id)`
stores the transaction id. -/
structure Session where
  transaction_id : String
  deriving Repr, DecidableEq

/-- Modelled from the spec: the external session store (`SessionManager`,
absent from src/) — "an external session store keyed by a transaction
identifier".  Each entry carries the stored session and its expiry time. -/
structure SessionStore where
  sessions : List (String × Session × Nat)
  deriving Repr, DecidableEq

/-- The session-expiry timeout used when a session is created or refreshed
(`ussd_session_timeout` in the transport config; its numeric value is
irrelevant to the claims, only that create and save both set it afresh). -/
def sessionTimeout : Nat := 600

/-- Modelled from the spec: `SessionManager.load_session` (absent from src/)
— look up the session stored for a key, if any. -/
def load_session (st : SessionStore) (session_id : String) : Option Session :=
  match st.sessions.find? (fun e => e.1 = session_id) with
  | some e => some e.2.1
  | none => none

/-- Replace (or add) the entry for `session_id`, setting a fresh expiry. -/
def storePut (st : SessionStore) (session_id : String) (s : Session) : SessionStore :=
  ⟨(session_id, s, sessionTimeout) ::
    st.sessions.filter (fun e => e.1 ≠ session_id)⟩

/-- Modelled from the spec: `SessionManager.create_session` (absent from
src/) — "session absent ⇒ NEW + create": stores a new session record for the
key. -/
def create_session (st : SessionStore) (session_id transaction_id : String) : SessionStore :=
  storePut st session_id ⟨transaction_id⟩

/-- Modelled from the spec: `SessionManager.save_session` (absent from src/)
— "session present ⇒ RESUME + refresh expiry": saves the session back under
the key with a fresh expiry. -/
def save_session (st : SessionStore) (session_id : String) (s : Session) : SessionStore :=
  storePut st session_id s

/-- `DmarkUssdTransport.session_event_for_transaction` from `dmark_ussd.py`:
load the session for the transaction id; if present, the event is RESUME and
the session is saved back; if absent, the event is NEW and a session is
created with `transaction_id=transaction_id`. -/
def session_event_for_transaction (st : SessionStore) (transaction_id : String) :
    SessionEvent × SessionStore :=
  let session_id := transaction_id
  match load_session st transaction_id with
  | some session => (SessionEvent.resume, save_session st session_id session)
  | none => (SessionEvent.new, create_session st session_id transaction_id)

/-- Character-by-character test that the first list leads the second. -/
def leadsChars : List Char → List Char → Bool
  | [], _ => true
  | _ :: _, [] => false
  | p :: ps, c :: cs => (p = c) && leadsChars ps cs

/-- Python's `str.startswith`, as a structural test on the character list. -/
def strStartsWith (s p : String) : Bool := leadsChars p.data s.data

/-- Python's `str.endswith`, as a structural test on the reversed character
list. -/
def strEndsWith (s p : String) : Bool := leadsChars p.data.reverse s.data.reverse

/-- The static transport configuration fields relevant to inbound handling
(`DmarkUssdTransportConfig`). -/
structure DmarkConfig where
  fix_to_addr : Bool
  deriving Repr, DecidableEq

/-- The decoded query-parameter values of an inbound Dmark request, after
field validation succeeded (`EXPECTED_FIELDS` of `dmark_ussd.py`). -/
structure DmarkRequest where
  transactionId : String
  msisdn : String
  ussdServiceCode : String
  transactionTime : String
  ussdRequestString : String
  creationTime : String
  response : String
  deriving Repr, DecidableEq

/-- The message published by `handle_raw_inbound_message`, with the keyword
arguments it passes to `publish_message`. -/
structure PublishedMessage where
  message_id : String
  content : Option String
  to_addr : String
  from_addr : String
  provider : String
  session_event : SessionEvent
  transport_type : String
  session_id : String
  transaction_id : String
  transaction_time : String
  creation_time : String
  deriving Repr, DecidableEq

/-- `DmarkUssdTransport.handle_raw_inbound_message` from `dmark_ussd.py`, on
the path where field extraction succeeded: computes `to_addr` (with the
`fix_to_addr` rewrite), consults the session store for the session event,
nulls the content on a NEW session, and publishes the inbound message. -/
def handle_raw_inbound_message (config : DmarkConfig) (st : SessionStore)
    (request_id : String) (values : DmarkRequest) : PublishedMessage × SessionStore :=
  let to_addr := values.ussdServiceCode
  let to_addr :=
    if config.fix_to_addr
        && ! strStartsWith to_addr "*"
        && ! strEndsWith to_addr "#" then
      "*" ++ to_addr ++ "#"
    else
      to_addr
  let from_addr := values.msisdn
  let content := values.ussdRequestString
  let (session_event, st') := session_event_for_transaction st values.transactionId
  let content : Option String :=
    if session_event = SessionEvent.new then none else some content
  (⟨request_id, content, to_addr, from_addr, "dmark", session_event, "ussd",
    values.transactionId, values.transactionId, values.transactionTime,
    values.creationTime⟩, st')

/-- A consumed outbound (reply) message, with the fields
`handle_outbound_message` reads. -/
structure OutboundMessage where
  message_id : String
  in_reply_to : Option String
  content : Option String
  session_event : Option SessionEvent
  deriving Repr, DecidableEq

/-- Modelled from the spec: the HTTP-RPC transport's outstanding-request
table (`HttpRpcTransport`, absent from src/) — the set of external requests
awaiting a response, keyed by request id. -/
structure HttpRpcState where
  requests : List String
  deriving Repr, DecidableEq

/-- An external HTTP response written by `finish_request`: the request id it
completed and the JSON fields `(responseString, action)` sent in the body. -/
structure HttpResponse where
  request_id : String
  responseString : String
  action : String
  deriving Repr, DecidableEq

/-- Modelled from the spec: `HttpRpcTransport.finish_request` (absent from
src/) — "completes exactly one outstanding external request per reply":
if the request id is outstanding, removes it, sends the response, and returns
the response id; otherwise returns `none` and sends nothing. -/
def finish_request (st : HttpRpcState) (request_id : String)
    (data : String × String) : Option String × HttpRpcState × List HttpResponse :=
  if request_id ∈ st.requests then
    (some request_id, ⟨st.requests.erase request_id⟩,
      [⟨request_id, data.1, data.2⟩])
  else
    (none, st, [])

/-- The result of handling an outbound message: the message was rejected for
missing fields, acknowledged, or negatively acknowledged. -/
inductive OutboundResult where
  | rejected (missing_fields : List String)
  | ack (user_message_id sent_message_id : String)
  | nack (user_message_id sent_message_id reason : String)
  deriving Repr, DecidableEq

/-- `ensure_message_values(message, ['in_reply_to', 'content'])` from
`dmark_ussd.py`: the listed fields that are missing from the message. -/
def missingFields (message : OutboundMessage) : List String :=
  (if message.in_reply_to = none then ["in_reply_to"] else []) ++
    (if message.content = none then ["content"] else [])

/-- `DmarkUssdTransport.handle_outbound_message` from `dmark_ussd.py`:
rejects the message when `in_reply_to` or `content` is missing; otherwise
maps a CLOSE session event to the `"end"` action and anything else to
`"request"`, finishes the original HTTP request with
`(responseString, action)`, and publishes an ack if a request was completed
and a nack otherwise. -/
def handle_outbound_message (st : HttpRpcState) (message : OutboundMessage) :
    OutboundResult × HttpRpcState × List HttpResponse :=
  if missingFields message ≠ [] then
    (OutboundResult.rejected (missingFields message), st, [])
  else
    let action :=
      if message.session_event = some SessionEvent.close then "end" else "request"
    let response_data := (message.content.getD "", action)
    let (response_id, st', responses) :=
      finish_request st (message.in_reply_to.getD "") response_data
    match response_id with
    | some _ =>
      (OutboundResult.ack message.message_id message.message_id, st', responses)
    | none =>
      (OutboundResult.nack message.message_id message.message_id
        "Could not find original request.", st', responses)

end Dmark

/-! ## Theorems -/

namespace FakeAMQP

theorem alookup_append {α : Type} (k : String) (v : α) (l : List (String × α))
    (h : alookup k l = none) : alookup k (l ++ [(k, v)]) = some v := by
  induction l with
  | nil => simp [alookup]
  | cons hd tl ih =>
    obtain ⟨k', v'⟩ := hd
    simp only [List.cons_append, alookup] at h ⊢
    by_cases hk : k = k'
    · simp [hk] at h
    · simp only [if_neg hk] at h ⊢
      exact ih h

theorem route_eq_nil (b : FakeAMQPBroker) (exchange key : String)
    (h : ∀ ex ∈ (alookup exchange b.exchanges).toList,
      ∀ pq ∈ ex.binds, patternMatches ex.exchange_type pq.1 key = false) :
    route b exchange key = [] := by
  unfold route
  cases hex : alookup exchange b.exchanges with
  | none => rfl
  | some ex =>
    have hfilter :
        ex.binds.filter (fun pq => patternMatches ex.exchange_type pq.1 key) = [] := by
      apply List.filter_eq_nil_iff.mpr
      intro pq hpq
      have := h ex (by rw [hex]; simp) pq hpq
      simp [this]
    simp [hfilter]

/-- C1: end-to-end direct-exchange routing on the scenario topology (direct
exchange `direct`; `q1` bound to `routing.key.one` and `routing.key.two`;
`q2` bound to `routing.key.two`; `q3` unbound): publishing `routing.key.one`
delivers exactly one message to `q1` and none to `q2` or `q3`; publishing
`routing.key.two` delivers exactly one message to each of `q1` and `q2` and
none to `q3`; publishing `routing.key.none`, `routing.key.*` or
`routing.key.#` delivers nothing at all — a direct exchange matches only by
exact string equality and never interprets wildcards. -/
theorem C1_direct_exchange_end_to_end :
    (deliveredCount (basic_publish scenarioBroker "direct" "routing.key.one" "blah").2 "q1" = 1 ∧
     deliveredCount (basic_publish scenarioBroker "direct" "routing.key.one" "blah").2 "q2" = 0 ∧
     deliveredCount (basic_publish scenarioBroker "direct" "routing.key.one" "blah").2 "q3" = 0) ∧
    (deliveredCount (basic_publish scenarioBroker "direct" "routing.key.two" "blah").2 "q1" = 1 ∧
     deliveredCount (basic_publish scenarioBroker "direct" "routing.key.two" "blah").2 "q2" = 1 ∧
     deliveredCount (basic_publish scenarioBroker "direct" "routing.key.two" "blah").2 "q3" = 0) ∧
    (basic_publish scenarioBroker "direct" "routing.key.none" "blah").2 = [] ∧
    (basic_publish scenarioBroker "direct" "routing.key.*" "blah").2 = [] ∧
    (basic_publish scenarioBroker "direct" "routing.key.#" "blah").2 = [] := by
  decide

/-- C2: every delivery-hook invocation caused by a publish carries exactly
the three positional arguments `(exchange_name, routing_key, payload)`, in
that order, equal to the exchange name, routing key and payload of the
publish. -/
theorem C2_delivery_callback_args (b : FakeAMQPBroker) (exchange key payload : String)
    (d : Delivery) (hd : d ∈ (basic_publish b exchange key payload).2) :
    d.arg1 = exchange ∧ d.arg2 = key ∧ d.arg3 = payload := by
  unfold basic_publish at hd
  simp only [List.mem_map] at hd
  obtain ⟨q, _, rfl⟩ := hd
  exact ⟨rfl, rfl, rfl⟩

theorem C2_delivery_callback_args_witness :
    (Delivery.mk "q1" "direct" "routing.key.one" "blah").arg1 = "direct" ∧
    (Delivery.mk "q1" "direct" "routing.key.one" "blah").arg2 = "routing.key.one" ∧
    (Delivery.mk "q1" "direct" "routing.key.one" "blah").arg3 = "blah" :=
  C2_delivery_callback_args scenarioBroker "direct" "routing.key.one" "blah"
    (Delivery.mk "q1" "direct" "routing.key.one" "blah") (by decide)

/-- C3: publishing to an exchange where no binding's pattern matches the
routing key (including publishing to an unknown exchange) is a silent no-op:
the broker state is returned unchanged and the delivery trace is empty, and
`basic_publish` is a total function, so no error is raised. -/
theorem C3_no_match_publish_is_silent_noop (b : FakeAMQPBroker)
    (exchange key payload : String)
    (h : ∀ ex ∈ (alookup exchange b.exchanges).toList,
      ∀ pq ∈ ex.binds, patternMatches ex.exchange_type pq.1 key = false) :
    basic_publish b exchange key payload = (b, []) := by
  unfold basic_publish
  rw [route_eq_nil b exchange key h]
  rfl

theorem C3_no_match_publish_is_silent_noop_witness :
    basic_publish scenarioBroker "direct" "routing.key.none" "blah" = (scenarioBroker, []) :=
  C3_no_match_publish_is_silent_noop scenarioBroker "direct" "routing.key.none" "blah"
    (by decide)

end FakeAMQP

namespace FakeAMQP

theorem alookup_aupdate {α : Type} (k : String) (f : α → α) (l : List (String × α)) :
    alookup k (aupdate k f l) = (alookup k l).map f := by
  induction l with
  | nil => simp [alookup, aupdate]
  | cons hd tl ih =>
    obtain ⟨k', v⟩ := hd
    by_cases h : k = k'
    · simp [alookup, aupdate, h]
    · simp [alookup, aupdate, h, ih]

theorem aupdate_append {α : Type} (k : String) (f : α → α) (v : α) (l : List (String × α))
    (h : alookup k l = none) : aupdate k f (l ++ [(k, v)]) = l ++ [(k, f v)] := by
  induction l with
  | nil => simp [aupdate]
  | cons hd tl ih =>
    obtain ⟨k', v'⟩ := hd
    simp only [alookup] at h
    by_cases hk : k = k'
    · simp [hk] at h
    · rw [if_neg hk] at h
      simp [aupdate, hk, ih h]

theorem aupdate_idem {α : Type} (k : String) (f : α → α) (hf : ∀ v, f (f v) = f v)
    (l : List (String × α)) : aupdate k f (aupdate k f l) = aupdate k f l := by
  induction l with
  | nil => simp [aupdate]
  | cons hd tl ih =>
    obtain ⟨k', v⟩ := hd
    by_cases h : k = k'
    · simp [aupdate, h, hf]
    · simp [aupdate, h, ih]

theorem bindInsert_idem (q : String) (s : List String) :
    bindInsert q (bindInsert q s) = bindInsert q s := by
  induction s with
  | nil => simp [bindInsert]
  | cons a s ih =>
    by_cases h : q = a
    · simp [bindInsert, h]
    · simp [bindInsert, h, ih]

theorem addBind_idem (ex : Exchange) (pattern queue : String) :
    addBind (addBind ex pattern queue) pattern queue = addBind ex pattern queue := by
  cases hp : alookup pattern ex.binds with
  | some s =>
    have h1 : addBind ex pattern queue =
        { ex with binds := aupdate pattern (bindInsert queue) ex.binds } := by
      unfold addBind; rw [hp]
    have h2 : alookup pattern (aupdate pattern (bindInsert queue) ex.binds) =
        some (bindInsert queue s) := by
      rw [alookup_aupdate, hp]; rfl
    rw [h1]
    unfold addBind
    simp only [h2]
    rw [aupdate_idem pattern (bindInsert queue) (bindInsert_idem queue)]
  | none =>
    have h1 : addBind ex pattern queue =
        { ex with binds := ex.binds ++ [(pattern, [queue])] } := by
      unfold addBind; rw [hp]
    have h2 : alookup pattern (ex.binds ++ [(pattern, [queue])]) = some [queue] :=
      alookup_append pattern [queue] ex.binds hp
    rw [h1]
    unfold addBind
    simp only [h2]
    rw [aupdate_append pattern (bindInsert queue) [queue] ex.binds hp]
    simp [bindInsert]

theorem exchange_declare_idem (b : FakeAMQPBroker) (name ty : String) :
    exchange_declare (exchange_declare b name ty) name ty = exchange_declare b name ty := by
  cases h : alookup name b.exchanges with
  | some ex =>
    have h1 : exchange_declare b name ty = b := by unfold exchange_declare; rw [h]
    rw [h1]
    exact h1
  | none =>
    have h1 : exchange_declare b name ty =
        { b with exchanges := b.exchanges ++ [(name, ⟨name, ty, []⟩)] } := by
      unfold exchange_declare; rw [h]
    have h2 : alookup name (b.exchanges ++ [(name, Exchange.mk name ty [])]) =
        some ⟨name, ty, []⟩ :=
      alookup_append name (Exchange.mk name ty []) b.exchanges h
    rw [h1]
    unfold exchange_declare
    simp only [h2]

theorem queue_declare_idem (b : FakeAMQPBroker) (name : String) :
    queue_declare (queue_declare b name) name = queue_declare b name := by
  cases h : alookup name b.queues with
  | some q =>
    have h1 : queue_declare b name = b := by unfold queue_declare; rw [h]
    rw [h1]
    exact h1
  | none =>
    have h1 : queue_declare b name =
        { b with queues := b.queues ++ [(name, ⟨name, []⟩)] } := by
      unfold queue_declare; rw [h]
    have h2 : alookup name (b.queues ++ [(name, Queue.mk name [])]) = some ⟨name, []⟩ :=
      alookup_append name (Queue.mk name []) b.queues h
    rw [h1]
    unfold queue_declare
    simp only [h2]

theorem queue_bind_idem (b : FakeAMQPBroker) (qname ename pat : String) (b' : FakeAMQPBroker)
    (h : queue_bind b qname ename pat = Except.ok b') :
    queue_bind b' qname ename pat = Except.ok b' := by
  unfold queue_bind at h
  cases hex : alookup ename b.exchanges with
  | none => rw [hex] at h; simp at h
  | some ex =>
    rw [hex] at h
    cases hq : alookup qname b.queues with
    | none => rw [hq] at h; simp at h
    | some q =>
      rw [hq] at h
      simp only [Except.ok.injEq] at h
      subst h
      unfold queue_bind
      have hex' : alookup ename
          (aupdate ename (fun ex => addBind ex pat qname) b.exchanges) =
          some (addBind ex pat qname) := by
        rw [alookup_aupdate, hex]; rfl
      simp only [hex', hq]
      have hidem : aupdate ename (fun ex => addBind ex pat qname)
          (aupdate ename (fun ex => addBind ex pat qname) b.exchanges) =
          aupdate ename (fun ex => addBind ex pat qname) b.exchanges :=
        aupdate_idem ename (fun ex => addBind ex pat qname)
          (fun ex => addBind_idem ex pat qname) b.exchanges
      simp [hidem]

/-- C4: topology mutation is idempotent — for every broker state, repeating
the same `exchange_declare` (same name and type), the same `queue_declare`
(same name), or the same `queue_bind` (same queue, exchange and pattern
triple) leaves the topology exactly as after performing it once. -/
theorem C4_topology_mutation_idempotent (b : FakeAMQPBroker)
    (name exchange_type qname ename pat : String) :
    exchange_declare (exchange_declare b name exchange_type) name exchange_type =
      exchange_declare b name exchange_type ∧
    queue_declare (queue_declare b name) name = queue_declare b name ∧
    (∀ b', queue_bind b qname ename pat = Except.ok b' →
      queue_bind b' qname ename pat = Except.ok b') :=
  ⟨exchange_declare_idem b name exchange_type, queue_declare_idem b name,
    fun b' h => queue_bind_idem b qname ename pat b' h⟩

theorem C4_topology_mutation_idempotent_witness :
    exchange_declare (exchange_declare scenarioBroker "direct" "direct") "direct" "direct" =
      exchange_declare scenarioBroker "direct" "direct" ∧
    queue_declare (queue_declare scenarioBroker "direct") "direct" =
      queue_declare scenarioBroker "direct" ∧
    queue_bind (bindOrKeep scenarioBroker "q1" "direct" "routing.key.one")
        "q1" "direct" "routing.key.one" =
      Except.ok (bindOrKeep scenarioBroker "q1" "direct" "routing.key.one") := by
  obtain ⟨h1, h2, h3⟩ := C4_topology_mutation_idempotent scenarioBroker
    "direct" "direct" "q1" "direct" "routing.key.one"
  exact ⟨h1, h2, h3 (bindOrKeep scenarioBroker "q1" "direct" "routing.key.one") rfl⟩

theorem length_filter_eq_one {α : Type} [DecidableEq α] (a : α) (l : List α)
    (hnd : l.Nodup) (hm : a ∈ l) : (l.filter (fun x => x = a)).length = 1 := by
  induction l with
  | nil => simp at hm
  | cons c l ih =>
    rw [List.nodup_cons] at hnd
    rw [List.filter_cons]
    rcases List.mem_cons.mp hm with h | h
    · have hpos : decide (c = a) = true := by simp [h]
      have hnil : l.filter (fun x => decide (x = a)) = [] := by
        apply List.filter_eq_nil_iff.mpr
        intro x hx
        simp only [decide_eq_true_eq]
        intro hxa
        rw [hxa, h] at hx
        exact hnd.1 hx
      simp [hpos, hnil]
    · have hneg : ¬(c = a) := fun hca => hnd.1 (hca ▸ h)
      simp only [decide_eq_true_eq, if_neg hneg]
      exact ih hnd.2 h

/-- C5: fan-out without duplication — if a queue `Q` is bound via two
distinct patterns on the same exchange and both patterns match the published
routing key, the publish delivers exactly one copy of the message to `Q`:
the routing result is the deduplicated union of the bound queue sets of all
matching patterns. -/
theorem C5_fanout_without_duplication (b : FakeAMQPBroker)
    (exchange key payload Q p1 p2 : String) (ex : Exchange) (qs1 qs2 : List String)
    (hex : alookup exchange b.exchanges = some ex)
    (h1 : (p1, qs1) ∈ ex.binds) (h2 : (p2, qs2) ∈ ex.binds)
    (hne : p1 ≠ p2)
    (hq1 : Q ∈ qs1) (hq2 : Q ∈ qs2)
    (hm1 : patternMatches ex.exchange_type p1 key = true)
    (hm2 : patternMatches ex.exchange_type p2 key = true) :
    deliveredCount (basic_publish b exchange key payload).2 Q = 1 := by
  have htrace : (basic_publish b exchange key payload).2 =
      (route b exchange key).map (fun q => ⟨q, exchange, key, payload⟩) := rfl
  have hroute : route b exchange key =
      (((ex.binds.filter (fun pq => patternMatches ex.exchange_type pq.1 key)).map
        Prod.snd).flatten).dedup := by
    unfold route; rw [hex]
  have hmem : Q ∈ route b exchange key := by
    rw [hroute, List.mem_dedup]
    apply List.mem_flatten.mpr
    refine ⟨qs1, List.mem_map.mpr ⟨(p1, qs1), List.mem_filter.mpr ⟨h1, ?_⟩, rfl⟩, hq1⟩
    simp [hm1]
  have hnd : (route b exchange key).Nodup := by
    rw [hroute]; exact List.nodup_dedup _
  rw [deliveredCount, htrace, List.filter_map, List.length_map]
  have hcomp : ((fun d : Delivery => decide (d.queue = Q)) ∘
      (fun q => Delivery.mk q exchange key payload)) = fun q => decide (q = Q) := rfl
  rw [hcomp]
  exact length_filter_eq_one Q (route b exchange key) hnd hmem

theorem C5_fanout_without_duplication_witness :
    deliveredCount (basic_publish topicBroker "topic" "routing.key.x" "pay").2 "q1" = 1 :=
  C5_fanout_without_duplication topicBroker "topic" "routing.key.x" "pay" "q1"
    "routing.key.*" "routing.key.#"
    (Exchange.mk "topic" "topic" [("routing.key.*", ["q1"]), ("routing.key.#", ["q1"])])
    ["q1"] ["q1"] (by decide) (by decide) (by decide) (by decide)
    (by decide) (by decide) (by decide) (by decide)

end FakeAMQP

namespace Dmark

theorem load_session_storePut (st : SessionStore) (k : String) (s : Session) :
    load_session (storePut st k s) k = some s := by
  simp [load_session, storePut, List.find?]

/-- C6: session-event computation for an inbound external event with
transaction identifier `T` — if no session for `T` exists, the event is NEW
and a session record for `T` is created (so a second event for the same `T`
yields RESUME); if a session exists, the event is RESUME and the existing
session is saved back (refreshing its expiry). -/
theorem C6_session_event_new_then_resume (st : SessionStore) (T : String) :
    (load_session st T = none →
      (session_event_for_transaction st T).1 = SessionEvent.new ∧
      load_session (session_event_for_transaction st T).2 T = some ⟨T⟩ ∧
      (session_event_for_transaction (session_event_for_transaction st T).2 T).1 =
        SessionEvent.resume) ∧
    (∀ s, load_session st T = some s →
      (session_event_for_transaction st T).1 = SessionEvent.resume ∧
      (session_event_for_transaction st T).2 = save_session st T s) := by
  constructor
  · intro h
    have h1 : session_event_for_transaction st T =
        (SessionEvent.new, create_session st T T) := by
      unfold session_event_for_transaction
      rw [h]
    rw [h1]
    have h2 : load_session (create_session st T T) T = some ⟨T⟩ :=
      load_session_storePut st T ⟨T⟩
    refine ⟨rfl, h2, ?_⟩
    unfold session_event_for_transaction
    rw [h2]
  · intro s h
    unfold session_event_for_transaction
    rw [h]
    exact ⟨rfl, rfl⟩

theorem C6_session_event_new_then_resume_witness :
    (session_event_for_transaction ⟨[]⟩ "T").1 = SessionEvent.new ∧
    load_session (session_event_for_transaction ⟨[]⟩ "T").2 "T" = some ⟨"T"⟩ ∧
    (session_event_for_transaction (session_event_for_transaction ⟨[]⟩ "T").2 "T").1 =
      SessionEvent.resume :=
  (C6_session_event_new_then_resume ⟨[]⟩ "T").1 rfl

theorem handle_outbound_eq (st : HttpRpcState) (message : OutboundMessage) (r : String)
    (hr : message.in_reply_to = some r) (hmf : missingFields message = []) :
    handle_outbound_message st message =
      if r ∈ st.requests then
        (OutboundResult.ack message.message_id message.message_id,
          ⟨st.requests.erase r⟩,
          [⟨r, message.content.getD "",
            if message.session_event = some SessionEvent.close then "end"
            else "request"⟩])
      else
        (OutboundResult.nack message.message_id message.message_id
          "Could not find original request.", st, []) := by
  unfold handle_outbound_message finish_request
  rw [if_neg (by simp [hmf])]
  rw [hr]
  by_cases hin : r ∈ st.requests
  · simp [hin]
  · simp [hin]

/-- C7: outbound reply action mapping — for every consumed reply with
`in_reply_to` and `content` present, every external response the adapter
sends carries the terminal `"end"` action exactly when the reply's
session-event is CLOSE, and otherwise the continue action, spelled
`"request"` by this transport; those two are the only action values ever
produced. -/
theorem C7_outbound_action_mapping (st : HttpRpcState) (message : OutboundMessage)
    (r c : String) (hr : message.in_reply_to = some r) (hc : message.content = some c) :
    ∀ resp ∈ (handle_outbound_message st message).2.2,
      resp.action =
        (if message.session_event = some SessionEvent.close then "end"
         else "request") ∧
      (resp.action = "end" ∨ resp.action = "request") := by
  intro resp hresp
  have hmf : missingFields message = [] := by simp [missingFields, hr, hc]
  rw [handle_outbound_eq st message r hr hmf] at hresp
  by_cases hin : r ∈ st.requests
  · rw [if_pos hin] at hresp
    simp only [List.mem_singleton] at hresp
    subst hresp
    refine ⟨rfl, ?_⟩
    by_cases hclose : message.session_event = some SessionEvent.close <;>
      simp [hclose]
  · rw [if_neg hin] at hresp
    simp at hresp

theorem C7_outbound_action_mapping_witness :
    (HttpResponse.mk "r1" "hi" "end").action =
      (if (some SessionEvent.close : Option SessionEvent) = some SessionEvent.close
       then "end" else "request") ∧
    ((HttpResponse.mk "r1" "hi" "end").action = "end" ∨
      (HttpResponse.mk "r1" "hi" "end").action = "request") :=
  C7_outbound_action_mapping ⟨["r1"]⟩
    ⟨"m1", some "r1", some "hi", some SessionEvent.close⟩ "r1" "hi" rfl rfl
    (HttpResponse.mk "r1" "hi" "end") (by decide)

/-- C8: reply completion — for every consumed reply with `in_reply_to` and
`content` present, if `in_reply_to` does not identify an outstanding external
request the adapter publishes a nack with reason "Could not find original
request." and changes nothing (and, being a total function, raises no
exception); if it does, the adapter removes exactly that one request from the
outstanding set, sends exactly one response, and publishes an ack. -/
theorem C8_reply_nack_or_ack (st : HttpRpcState) (message : OutboundMessage)
    (r c : String) (hr : message.in_reply_to = some r) (hc : message.content = some c) :
    (r ∉ st.requests →
      handle_outbound_message st message =
        (OutboundResult.nack message.message_id message.message_id
          "Could not find original request.", st, [])) ∧
    (r ∈ st.requests →
      (handle_outbound_message st message).1 =
        OutboundResult.ack message.message_id message.message_id ∧
      (handle_outbound_message st message).2.1 = ⟨st.requests.erase r⟩ ∧
      (handle_outbound_message st message).2.2.length = 1) := by
  have hmf : missingFields message = [] := by simp [missingFields, hr, hc]
  constructor
  · intro hout
    rw [handle_outbound_eq st message r hr hmf, if_neg hout]
  · intro hin
    rw [handle_outbound_eq st message r hr hmf, if_pos hin]
    exact ⟨rfl, rfl, rfl⟩

theorem C8_reply_nack_or_ack_witness :
    handle_outbound_message ⟨["r1"]⟩ ⟨"m1", some "r2", some "hi", none⟩ =
      (OutboundResult.nack "m1" "m1" "Could not find original request.",
        ⟨["r1"]⟩, []) :=
  (C8_reply_nack_or_ack ⟨["r1"]⟩ ⟨"m1", some "r2", some "hi", none⟩ "r2" "hi"
    rfl rfl).1 (by decide)

/-- C9: for every valid inbound request, when the computed session-event is
NEW the published message's content is `None` (the request's
`ussdRequestString` is discarded); when it is RESUME the published content is
the request's `ussdRequestString`. -/
theorem C9_new_session_discards_content (config : DmarkConfig) (st : SessionStore)
    (request_id : String) (values : DmarkRequest) :
    ((handle_raw_inbound_message config st request_id values).1.session_event =
        SessionEvent.new →
      (handle_raw_inbound_message config st request_id values).1.content = none) ∧
    ((handle_raw_inbound_message config st request_id values).1.session_event =
        SessionEvent.resume →
      (handle_raw_inbound_message config st request_id values).1.content =
        some values.ussdRequestString) := by
  unfold handle_raw_inbound_message
  cases hload : load_session st values.transactionId with
  | none => simp [session_event_for_transaction, hload]
  | some s => simp [session_event_for_transaction, hload]

theorem C9_new_session_discards_content_witness :
    (handle_raw_inbound_message ⟨false⟩ ⟨[]⟩ "req1"
        ⟨"txn1", "mm", "123", "tt", "hello", "ct", "false"⟩).1.content = none ∧
    (handle_raw_inbound_message ⟨false⟩ ⟨[("txn1", ⟨"txn1"⟩, 600)]⟩ "req1"
        ⟨"txn1", "mm", "123", "tt", "hello", "ct", "false"⟩).1.content =
      some "hello" :=
  ⟨(C9_new_session_discards_content ⟨false⟩ ⟨[]⟩ "req1"
      ⟨"txn1", "mm", "123", "tt", "hello", "ct", "false"⟩).1 (by decide),
   (C9_new_session_discards_content ⟨false⟩ ⟨[("txn1", ⟨"txn1"⟩, 600)]⟩ "req1"
      ⟨"txn1", "mm", "123", "tt", "hello", "ct", "false"⟩).2 (by decide)⟩

/-- C10: with `fix_to_addr` enabled, the published `to_addr` is rewritten to
`*<value>#` exactly when the raw `ussdServiceCode` neither starts with `*`
nor ends with `#`; a value that already starts with `*` or already ends with
`#` (in particular one that starts with `*` but does not end with `#`, or
ends with `#` but does not start with `*`) is published unchanged. -/
theorem C10_fix_to_addr_rewrite (config : DmarkConfig) (st : SessionStore)
    (request_id : String) (values : DmarkRequest)
    (hfix : config.fix_to_addr = true) :
    ((strStartsWith values.ussdServiceCode "*" = false ∧
        strEndsWith values.ussdServiceCode "#" = false) →
      (handle_raw_inbound_message config st request_id values).1.to_addr =
        "*" ++ values.ussdServiceCode ++ "#") ∧
    ((strStartsWith values.ussdServiceCode "*" = true ∨
        strEndsWith values.ussdServiceCode "#" = true) →
      (handle_raw_inbound_message config st request_id values).1.to_addr =
        values.ussdServiceCode) := by
  unfold handle_raw_inbound_message
  constructor
  · rintro ⟨h1, h2⟩
    simp [hfix, h1, h2]
  · rintro (h | h) <;> simp [hfix, h]

theorem C10_fix_to_addr_rewrite_witness :
    (handle_raw_inbound_message ⟨true⟩ ⟨[]⟩ "req1"
        ⟨"t1", "mm", "123", "tt", "h", "ct", "false"⟩).1.to_addr =
      "*" ++ "123" ++ "#" ∧
    (handle_raw_inbound_message ⟨true⟩ ⟨[]⟩ "req1"
        ⟨"t1", "mm", "*123", "tt", "h", "ct", "false"⟩).1.to_addr = "*123" :=
  ⟨(C10_fix_to_addr_rewrite ⟨true⟩ ⟨[]⟩ "req1"
      ⟨"t1", "mm", "123", "tt", "h", "ct", "false"⟩ rfl).1 (by decide),
   (C10_fix_to_addr_rewrite ⟨true⟩ ⟨[]⟩ "req1"
      ⟨"t1", "mm", "*123", "tt", "h", "ct", "false"⟩ rfl).2 (Or.inl (by decide))⟩

end Dmark
